import Mathlib

/-!
Shallow embedding of `src/extensions/ql-vscode/src/remote-queries/remote-queries-manager.ts`
(the `RemoteQueriesManager` class of the vscode-codeql extension).

The two pure transforms (`mapQueryResult`, the admission filter inside
`autoDownloadRemoteQueryResults`) are embedded as Lean functions.  The
side-effecting orchestration methods (`runRemoteQuery`, `monitorRemoteQuery`)
are embedded as functions from their inputs (including the values returned by
their awaited collaborators, which become explicit parameters) to the final
state of the tracked history entry together with the ordered list of
side-effect events they perform.  JavaScript numbers that hold byte sizes,
artifact ids and result counts are modelled as `Nat`; optional fields as
`Option`; `Date` values as an abstract `Nat` timestamp.
-/

namespace RemoteQueries

/-- Status enum of the external `QueryStatus` (query-status.ts): the tracked
history entry's status field. -/
inductive QueryStatus
  | InProgress
  | Completed
  | Failed
deriving DecidableEq

/-- The `RemoteQuery` descriptor (remote-query.ts): the fields this manager
reads are the query name and the repository list. -/
structure RemoteQuery where
  queryName : String
  repositories : List String
deriving DecidableEq

/-- Tracked history entry (remote-query-history-item.ts): name, storage id and
path plus the mutable fields `status`, `completed`, `failureReason` that
`monitorRemoteQuery` writes. -/
structure RemoteQueryHistoryItem where
  queryName : String
  queryId : String
  storagePath : String
  status : QueryStatus
  completed : Bool
  failureReason : Option String
deriving DecidableEq

/-- Modelled from the spec: the `RemoteQueryHistoryItem` constructor lives in
remote-query-history-item.ts, which is not among the given sources (only its
caller is).  The spec registers the job in the history tracker "in
`InProgress`-equivalent status" before polling starts, so a fresh entry starts
with status `InProgress`, not completed, and with no failure reason. -/
def mkRemoteQueryHistoryItem (queryName queryId storagePath : String) :
    RemoteQueryHistoryItem :=
  { queryName := queryName
    queryId := queryId
    storagePath := storagePath
    status := QueryStatus.InProgress
    completed := false
    failureReason := none }

/-- The four terminal-poll statuses of the monitor collaborator.  In the
source they are string literals compared with `===`; the `assertNever` default
branch makes the variant set closed, which the inductive reflects. -/
inductive RemoteQueryWorkflowStatus
  | InProgress
  | CompletedSuccessfully
  | CompletedUnsuccessfully
  | Cancelled
deriving DecidableEq

/-- The string value each status constant has in the source (the statuses are
string literals there; used when the status is spliced into a message). -/
def RemoteQueryWorkflowStatus.raw : RemoteQueryWorkflowStatus → String
  | .InProgress => "InProgress"
  | .CompletedSuccessfully => "CompletedSuccessfully"
  | .CompletedUnsuccessfully => "CompletedUnsuccessfully"
  | .Cancelled => "Cancelled"

/-- Result of `remoteQueriesMonitor.monitorQuery`: a status plus an optional
error detail (read only in the `CompletedUnsuccessfully` branch). -/
structure RemoteQueryWorkflowResult where
  status : RemoteQueryWorkflowStatus
  error : Option String
deriving DecidableEq

/-- One entry of the raw result index (remote-query-result-index.ts).  The
fields the manager reads: `nwo`, `artifactId`, `resultCount`, `sarifFileSize`
(optional) and `bqrsFileSize`. -/
structure RemoteQueryResultIndexItem where
  nwo : String
  artifactId : Nat
  resultCount : Nat
  sarifFileSize : Option Nat
  bqrsFileSize : Nat
deriving DecidableEq

/-- The raw result index: artifacts base URL path plus one item per target. -/
structure RemoteQueryResultIndex where
  artifactsUrlPath : String
  items : List RemoteQueryResultIndexItem
deriving DecidableEq

/-- `DownloadLink` (download-link.ts): artifact id rendered as a string, the
retrieval URL path, the expected inner file name and the owning query's
storage id. -/
structure DownloadLink where
  id : String
  urlPath : String
  innerFilePath : String
  queryId : String
deriving DecidableEq

/-- One normalised per-target summary inside a `RemoteQueryResult`. -/
structure AnalysisSummary where
  nwo : String
  resultCount : Nat
  fileSizeInBytes : Nat
  downloadLink : DownloadLink
deriving DecidableEq

/-- `RemoteQueryResult` (remote-query-result.ts): completion time plus the
ordered summaries. -/
structure RemoteQueryResult where
  executionEndTime : Nat
  analysisSummaries : List AnalysisSummary
deriving DecidableEq

/-- The per-download request shape built inside
`autoDownloadRemoteQueryResults` (note `fileSize` is the byte count rendered
as a decimal string, `String(a.fileSizeInBytes)`). -/
structure AnalysisDownload where
  nwo : String
  resultCount : Nat
  downloadLink : DownloadLink
  fileSize : String
deriving DecidableEq

/-- JavaScript truthiness of an optional number: `undefined` and `0` are
falsy, every other number is truthy.  This is the meaning of the source's
`item.sarifFileSize ? _ : _` conditionals. -/
def jsTruthy : Option Nat → Bool
  | none => false
  | some n => n != 0

/-- `const autoDownloadMaxSize = 300 * 1024;` -/
def autoDownloadMaxSize : Nat := 300 * 1024

/-- `const autoDownloadMaxCount = 100;` -/
def autoDownloadMaxCount : Nat := 100

/-- `private mapQueryResult(executionEndTime, resultIndex, queryId)`: maps
each index item, in order, to an `AnalysisSummary`; the size and the inner
file name are both selected by the truthiness of `item.sarifFileSize`. -/
def mapQueryResult (executionEndTime : Nat) (resultIndex : RemoteQueryResultIndex)
    (queryId : String) : RemoteQueryResult :=
  { executionEndTime := executionEndTime
    analysisSummaries := resultIndex.items.map fun item =>
      { nwo := item.nwo
        resultCount := item.resultCount
        fileSizeInBytes :=
          if jsTruthy item.sarifFileSize then item.sarifFileSize.getD 0
          else item.bqrsFileSize
        downloadLink :=
          { id := toString item.artifactId
            urlPath := resultIndex.artifactsUrlPath ++ "/" ++ toString item.artifactId
            innerFilePath :=
              if jsTruthy item.sarifFileSize then "results.sarif" else "results.bqrs"
            queryId := queryId } } }

/-- The admission filter of `autoDownloadRemoteQueryResults`: keep summaries
whose size is strictly below `autoDownloadMaxSize`, truncate to the first
`autoDownloadMaxCount`, and reshape each survivor into an `AnalysisDownload`.
The subsequent delegation to the download engine receives exactly this
list. -/
def autoDownloadRemoteQueryResults (queryResult : RemoteQueryResult) :
    List AnalysisDownload :=
  ((queryResult.analysisSummaries.filter
      (fun a => decide (a.fileSizeInBytes < autoDownloadMaxSize))).take
    autoDownloadMaxCount).map fun a =>
    { nwo := a.nwo
      resultCount := a.resultCount
      downloadLink := a.downloadLink
      fileSize := toString a.fileSizeInBytes }

/-- The object written by `storeFile` (which JSON-serialises its argument):
either the submitted query descriptor or the mapped result summary. -/
inductive StoredObject
  | queryObj (query : RemoteQuery)
  | queryResultObj (result : RemoteQueryResult)
deriving DecidableEq

/-- One observable side effect of the orchestration methods, in program
order.  Awaited collaborator calls and fire-and-forget `void ...` triggers
both appear as events; the latter carry no continuation, matching the source
where their results are discarded. -/
inductive Event
  | createTimestampFile (dirPath : String)
  | storeFile (queryId : String) (fileName : String) (obj : StoredObject)
  | addQuery (item : RemoteQueryHistoryItem)
  | credentialsInit
  | monitorQuery (query : RemoteQuery)
  | getRemoteQueryIndex (query : RemoteQuery)
  | showAndLogErrorMessage (msg : String)
  | executeCommandAutoDownload (result : RemoteQueryResult)
  | askToOpenResults (query : RemoteQuery) (result : RemoteQueryResult)
  | refreshTreeView
  | submitRemoteQuery
  | executeCommandMonitorRemoteQuery (query : RemoteQuery)
deriving DecidableEq

/-- `private createQueryId(queryName)`: the source appends a fresh `nanoid()`
to the query name; the random suffix is an explicit parameter here. -/
def createQueryId (queryName : String) (suffix : String) : String :=
  queryName ++ "-" ++ suffix

/-- `public async monitorRemoteQuery(query, cancellationToken)`, embedded as a
function of its inputs and of the values its awaited collaborators return:
the `nanoid` suffix, the terminal `RemoteQueryWorkflowResult` from the
monitor, the optional `RemoteQueryResultIndex` from `getRemoteQueryIndex`
(consulted only in the `CompletedSuccessfully` branch) and the
`executionEndTime` clock reading taken right after polling.  It returns the
final state of the tracked `queryHistoryItem` together with the ordered list
of side effects.  Note that in the `CompletedSuccessfully` branch with no
index the source `return`s early, before `this.qhm.refreshTreeView()`. -/
def monitorRemoteQuery (storagePath : String) (query : RemoteQuery)
    (suffix : String) (queryWorkflowResult : RemoteQueryWorkflowResult)
    (resultIndex : Option RemoteQueryResultIndex) (executionEndTime : Nat) :
    RemoteQueryHistoryItem × List Event :=
  let queryId := createQueryId query.queryName suffix
  let queryHistoryItem := mkRemoteQueryHistoryItem query.queryName queryId storagePath
  let pre : List Event :=
    [Event.createTimestampFile (storagePath ++ "/" ++ queryId),
     Event.storeFile queryId "query.json" (StoredObject.queryObj query),
     Event.addQuery queryHistoryItem,
     Event.credentialsInit,
     Event.monitorQuery query]
  match queryWorkflowResult.status with
  | .CompletedSuccessfully =>
    match resultIndex with
    | none =>
      (queryHistoryItem,
       pre ++
        [Event.getRemoteQueryIndex query,
         Event.showAndLogErrorMessage
           ("There was an issue retrieving the result for the query " ++ query.queryName)])
    | some idx =>
      let queryResult := mapQueryResult executionEndTime idx queryId
      ({ queryHistoryItem with completed := true, status := QueryStatus.Completed },
       pre ++
        [Event.getRemoteQueryIndex query,
         Event.storeFile queryId "query-result.json" (StoredObject.queryResultObj queryResult),
         Event.executeCommandAutoDownload queryResult,
         Event.askToOpenResults query queryResult,
         Event.refreshTreeView])
  | .CompletedUnsuccessfully =>
    ({ queryHistoryItem with
        failureReason := queryWorkflowResult.error,
        status := QueryStatus.Failed },
     pre ++
      [Event.showAndLogErrorMessage
         ("Remote query execution failed. Error: " ++ queryWorkflowResult.error.getD "undefined"),
       Event.refreshTreeView])
  | .Cancelled =>
    ({ queryHistoryItem with
        failureReason := some "Cancelled",
        status := QueryStatus.Failed },
     pre ++
      [Event.showAndLogErrorMessage "Remote query monitoring was cancelled",
       Event.refreshTreeView])
  | .InProgress =>
    (queryHistoryItem,
     pre ++
      [Event.showAndLogErrorMessage
         ("Unexpected status: " ++ queryWorkflowResult.status.raw),
       Event.refreshTreeView])

/-- Result of the external `runRemoteQuery` submission collaborator
(run-remote-query.ts): the manager only reads its optional `query` field.
The whole submission result may itself be absent. -/
structure QuerySubmission where
  query : Option RemoteQuery
deriving DecidableEq

/-- `public async runRemoteQuery(uri, progress, token)`, embedded as a
function of the value the awaited submission collaborator returns.  When the
submission carries a query, `void commands.executeCommand(...)` spawns
monitoring as the final, fire-and-forget event: the monitor's own effects are
not part of this trace and nothing after the trigger awaits it. -/
def runRemoteQuery (querySubmission : Option QuerySubmission) : List Event :=
  let pre : List Event := [Event.credentialsInit, Event.submitRemoteQuery]
  match querySubmission with
  | some s =>
    match s.query with
    | some q => pre ++ [Event.executeCommandMonitorRemoteQuery q]
    | none => pre
  | none => pre

/-- Recogniser for the `storeFile(queryId, 'query.json', query)` event. -/
def Event.isStoreQueryJson : Event → Bool
  | .storeFile _ "query.json" _ => true
  | _ => false

/-- Recogniser for the `storeFile(queryId, 'query-result.json', queryResult)`
event (persistence of the mapped result summary). -/
def Event.isStoreQueryResult : Event → Bool
  | .storeFile _ "query-result.json" _ => true
  | _ => false

/-- Recogniser for the `qhm.addQuery(queryHistoryItem)` event. -/
def Event.isAddQuery : Event → Bool
  | .addQuery _ => true
  | _ => false

/-- Recogniser for the `remoteQueriesMonitor.monitorQuery(...)` event. -/
def Event.isMonitorQuery : Event → Bool
  | .monitorQuery _ => true
  | _ => false

/-- Recogniser for the auto-download trigger event. -/
def Event.isAutoDownload : Event → Bool
  | .executeCommandAutoDownload _ => true
  | _ => false

/-- Recogniser for the monitoring trigger event of `runRemoteQuery`. -/
def Event.isMonitorTrigger : Event → Bool
  | .executeCommandMonitorRemoteQuery _ => true
  | _ => false

/-- Every event matched by `p` occurs strictly before every event matched by
`q` in the trace `tr`. -/
def precedes (p q : Event → Bool) (tr : List Event) : Prop :=
  ∀ i j : Nat, ∀ ei ej : Event, tr[i]? = some ei → tr[j]? = some ej →
    p ei = true → q ej = true → i < j

/-- Executable check for `precedes`: whenever an event matching `q` is
reached, no event matching `p` may occur at that position or later. -/
def precedesB (p q : Event → Bool) : List Event → Bool
  | [] => true
  | e :: tr => (!(q e) || (e :: tr).all (fun x => !(p x))) && precedesB p q tr

/-- Soundness of the executable check `precedesB` for `precedes`. -/
theorem precedes_of_precedesB (p q : Event → Bool) (tr : List Event)
    (h : precedesB p q tr = true) : precedes p q tr := by
  induction tr with
  | nil =>
    intro i j ei ej hi
    simp at hi
  | cons e tr ih =>
    rw [precedesB, Bool.and_eq_true] at h
    obtain ⟨h1, h2⟩ := h
    intro i j ei ej hi hj hpi hqj
    cases j with
    | zero =>
      rw [List.getElem?_cons_zero, Option.some_inj] at hj
      subst hj
      rcases Bool.or_eq_true_iff.mp h1 with hq | hall
      · rw [Bool.not_eq_true'] at hq
        rw [hq] at hqj
        exact absurd hqj (by simp)
      · have hmem : ei ∈ e :: tr := List.getElem?_mem hi
        have := List.all_eq_true.mp hall ei hmem
        rw [hpi] at this
        exact absurd this (by simp)
    | succ j =>
      cases i with
      | zero => exact Nat.succ_pos j
      | succ i =>
        rw [List.getElem?_cons_succ] at hi hj
        exact Nat.succ_lt_succ (ih h2 i j ei ej hi hj hpi hqj)

/-- Sample index item used by concrete witnesses: SARIF size present and
nonzero. -/
def sampleIndexItem : RemoteQueryResultIndexItem :=
  { nwo := "octo/repo"
    artifactId := 7
    resultCount := 3
    sarifFileSize := some 2048
    bqrsFileSize := 512 }

/-- Sample index item used by concrete witnesses: SARIF size absent. -/
def sampleIndexItemNoSarif : RemoteQueryResultIndexItem :=
  { nwo := "octo/other"
    artifactId := 8
    resultCount := 1
    sarifFileSize := none
    bqrsFileSize := 512 }

/-- Sample result index with two items. -/
def sampleIndex : RemoteQueryResultIndex :=
  { artifactsUrlPath := "repos/octo/artifacts"
    items := [sampleIndexItem, sampleIndexItemNoSarif] }

/-- Claim C3: for every `ResultIndex` entry, the mapped summary's kind and
size are selected jointly: if the entry's SARIF file size is present and
nonzero then `fileSizeInBytes` equals the SARIF size and the download link's
`innerFilePath` is `"results.sarif"`; otherwise `fileSizeInBytes` equals the
BQRS size and the `innerFilePath` is `"results.bqrs"`. -/
theorem mapQueryResult_kind_size (t : Nat) (idx : RemoteQueryResultIndex)
    (qid : String) (i : Nat) (item : RemoteQueryResultIndexItem)
    (h : idx.items[i]? = some item) :
    ∃ s : AnalysisSummary,
      (mapQueryResult t idx qid).analysisSummaries[i]? = some s ∧
      (∀ n : Nat, item.sarifFileSize = some n → n ≠ 0 →
        s.fileSizeInBytes = n ∧ s.downloadLink.innerFilePath = "results.sarif") ∧
      ((item.sarifFileSize = none ∨ item.sarifFileSize = some 0) →
        s.fileSizeInBytes = item.bqrsFileSize ∧
        s.downloadLink.innerFilePath = "results.bqrs") := by
  simp only [mapQueryResult, List.getElem?_map, h, Option.map_some']
  refine ⟨_, rfl, ?_, ?_⟩
  · intro n hn hn0
    simp [jsTruthy, hn, hn0]
  · rintro (hn | hn) <;> simp [jsTruthy, hn]

/-- Concrete witness for `mapQueryResult_kind_size`, on both a SARIF-sized
and a BQRS-only entry of `sampleIndex`. -/
theorem mapQueryResult_kind_size_witness :
    (∃ s : AnalysisSummary,
      (mapQueryResult 0 sampleIndex "qid").analysisSummaries[0]? = some s ∧
      s.fileSizeInBytes = 2048 ∧ s.downloadLink.innerFilePath = "results.sarif") ∧
    (∃ s : AnalysisSummary,
      (mapQueryResult 0 sampleIndex "qid").analysisSummaries[1]? = some s ∧
      s.fileSizeInBytes = 512 ∧ s.downloadLink.innerFilePath = "results.bqrs") := by
  constructor
  · obtain ⟨s, hs, hsar, _⟩ :=
      mapQueryResult_kind_size 0 sampleIndex "qid" 0 sampleIndexItem rfl
    exact ⟨s, hs, (hsar 2048 rfl (by decide)).1, (hsar 2048 rfl (by decide)).2⟩
  · obtain ⟨s, hs, _, hbq⟩ :=
      mapQueryResult_kind_size 0 sampleIndex "qid" 1 sampleIndexItemNoSarif rfl
    exact ⟨s, hs, (hbq (Or.inl rfl)).1, (hbq (Or.inl rfl)).2⟩

/-- Claim C5: mapping is deterministic and order-preserving; the i-th
summary's target identity and result count equal those of the i-th index
entry, the download link's URL path is the artifacts base path joined with
"/" to the artifact id, its `id` is the artifact id rendered as a string, and
the caller-supplied storage key (`queryId`) is carried unchanged.
Determinism holds because `mapQueryResult` is a pure function of its
arguments. -/
theorem mapQueryResult_order (t : Nat) (idx : RemoteQueryResultIndex)
    (qid : String) (i : Nat) (item : RemoteQueryResultIndexItem)
    (h : idx.items[i]? = some item) :
    (mapQueryResult t idx qid).analysisSummaries.length = idx.items.length ∧
    ∃ s : AnalysisSummary,
      (mapQueryResult t idx qid).analysisSummaries[i]? = some s ∧
      s.nwo = item.nwo ∧
      s.resultCount = item.resultCount ∧
      s.downloadLink.id = toString item.artifactId ∧
      s.downloadLink.urlPath = idx.artifactsUrlPath ++ "/" ++ toString item.artifactId ∧
      s.downloadLink.queryId = qid := by
  refine ⟨by simp [mapQueryResult], ?_⟩
  simp only [mapQueryResult, List.getElem?_map, h, Option.map_some']
  exact ⟨_, rfl, rfl, rfl, rfl, rfl, rfl⟩

/-- Concrete witness for `mapQueryResult_order` on `sampleIndex`. -/
theorem mapQueryResult_order_witness :
    (mapQueryResult 0 sampleIndex "qid").analysisSummaries.length =
      sampleIndex.items.length ∧
    ∃ s : AnalysisSummary,
      (mapQueryResult 0 sampleIndex "qid").analysisSummaries[0]? = some s ∧
      s.nwo = sampleIndexItem.nwo ∧
      s.resultCount = sampleIndexItem.resultCount ∧
      s.downloadLink.id = toString sampleIndexItem.artifactId ∧
      s.downloadLink.urlPath =
        sampleIndex.artifactsUrlPath ++ "/" ++ toString sampleIndexItem.artifactId ∧
      s.downloadLink.queryId = "qid" :=
  mapQueryResult_order 0 sampleIndex "qid" 0 sampleIndexItem rfl

/-- Claim C4: the admission filter of `autoDownloadRemoteQueryResults`
produces at most `min maxCount (number of summaries with size < maxBytes)`
requests with `maxBytes = 300 * 1024` and `maxCount = 100`, preserves the
relative order of the input (the output is the image of a sublist of the
input summaries), and every emitted request comes from a summary whose size
is strictly below `maxBytes`. -/
theorem autoDownloadRemoteQueryResults_admission (qr : RemoteQueryResult) :
    autoDownloadMaxSize = 300 * 1024 ∧ autoDownloadMaxCount = 100 ∧
    (autoDownloadRemoteQueryResults qr).length ≤
      min autoDownloadMaxCount
        ((qr.analysisSummaries.filter
          (fun a => decide (a.fileSizeInBytes < autoDownloadMaxSize))).length) ∧
    ∃ l : List AnalysisSummary,
      List.Sublist l qr.analysisSummaries ∧
      autoDownloadRemoteQueryResults qr = l.map (fun a =>
        { nwo := a.nwo, resultCount := a.resultCount, downloadLink := a.downloadLink,
          fileSize := toString a.fileSizeInBytes }) ∧
      l.all (fun a => decide (a.fileSizeInBytes < autoDownloadMaxSize)) = true := by
  refine ⟨rfl, rfl, ?_, ?_⟩
  · simp [autoDownloadRemoteQueryResults]
  · refine ⟨(qr.analysisSummaries.filter
        (fun a : AnalysisSummary => decide (a.fileSizeInBytes < autoDownloadMaxSize))).take
        autoDownloadMaxCount, ?_, ?_, ?_⟩
    · exact (List.take_sublist _ _).trans (List.filter_sublist _)
    · rfl
    · rw [List.all_eq_true]
      intro a ha
      have h1 : a ∈ qr.analysisSummaries.filter
          (fun x : AnalysisSummary => decide (x.fileSizeInBytes < autoDownloadMaxSize)) :=
        List.mem_of_mem_take ha
      simpa using List.of_mem_filter h1

/-- Sample query used by concrete witnesses and counterexamples. -/
def sampleQuery : RemoteQuery :=
  { queryName := "q", repositories := ["octo/repo"] }

/-- If the boolean all-check of `!p` passes on a trace, no event of the trace
satisfies `p`. -/
theorem eventAbsent (p : Event → Bool) (tr : List Event)
    (h : tr.all (fun e => !(p e)) = true) : ∀ e ∈ tr, p e = false := by
  intro e he
  have h2 := List.all_eq_true.mp h e he
  simpa using h2

/-- If the boolean all-check of `!p` passes on a trace, there is no event of
the trace satisfying `p`. -/
theorem noEventSat (p : Event → Bool) (tr : List Event)
    (h : tr.all (fun e => !(p e)) = true) : ¬ ∃ e ∈ tr, p e = true := by
  rintro ⟨e, he, hpe⟩
  have h2 := List.all_eq_true.mp h e he
  rw [hpe] at h2
  exact absurd h2 (by simp)

/-- Claim C1, counterexample: when the outcome is `CompletedSuccessfully` but
index retrieval returns nothing, `monitorRemoteQuery` returns early and the
history tracker's `refreshTreeView` is never executed, contradicting the
claim that the refresh action runs for every handled terminal outcome. -/
theorem monitorRemoteQuery_refresh_counterexample :
    Event.refreshTreeView ∉
      (monitorRemoteQuery "storage" sampleQuery "id"
        { status := RemoteQueryWorkflowStatus.CompletedSuccessfully, error := none }
        none 0).2 := by
  decide

/-- Claim C1, amended: for every terminal polling outcome handled by
`monitorRemoteQuery` except the one where the outcome is
`CompletedSuccessfully` and index retrieval returns nothing (where the method
returns early), `refreshTreeView` is executed as the last side effect of the
operation. -/
theorem monitorRemoteQuery_refresh_amended (sp : String) (q : RemoteQuery)
    (sfx : String) (wr : RemoteQueryWorkflowResult)
    (ri : Option RemoteQueryResultIndex) (t : Nat)
    (h : ¬ (wr.status = RemoteQueryWorkflowStatus.CompletedSuccessfully ∧ ri = none)) :
    (monitorRemoteQuery sp q sfx wr ri t).2.getLast? = some Event.refreshTreeView := by
  obtain ⟨st, err⟩ := wr
  cases st <;> cases ri <;> first
    | rfl
    | exact absurd ⟨rfl, rfl⟩ h

/-- Concrete witness for `monitorRemoteQuery_refresh_amended` on a `Cancelled`
outcome. -/
theorem monitorRemoteQuery_refresh_amended_witness :
    (monitorRemoteQuery "storage" sampleQuery "id"
        { status := RemoteQueryWorkflowStatus.Cancelled, error := none }
        none 0).2.getLast? = some Event.refreshTreeView :=
  monitorRemoteQuery_refresh_amended "storage" sampleQuery "id"
    { status := RemoteQueryWorkflowStatus.Cancelled, error := none } none 0 (by decide)

/-- Claim C2: when the outcome is `CompletedSuccessfully` but index retrieval
returns nothing, the tracked history entry is left exactly as it was
registered (status still `InProgress`, `completed` still false, no failure
reason), an error is reported, no result summary is persisted and
auto-download is not triggered. -/
theorem monitorRemoteQuery_indexFailure (sp : String) (q : RemoteQuery)
    (sfx : String) (wr : RemoteQueryWorkflowResult) (t : Nat)
    (h : wr.status = RemoteQueryWorkflowStatus.CompletedSuccessfully) :
    (monitorRemoteQuery sp q sfx wr none t).1 =
      mkRemoteQueryHistoryItem q.queryName (createQueryId q.queryName sfx) sp ∧
    Event.showAndLogErrorMessage
        ("There was an issue retrieving the result for the query " ++ q.queryName) ∈
      (monitorRemoteQuery sp q sfx wr none t).2 ∧
    (∀ e ∈ (monitorRemoteQuery sp q sfx wr none t).2,
      Event.isStoreQueryResult e = false) ∧
    (∀ e ∈ (monitorRemoteQuery sp q sfx wr none t).2,
      Event.isAutoDownload e = false) := by
  obtain ⟨st, err⟩ := wr
  replace h : st = RemoteQueryWorkflowStatus.CompletedSuccessfully := h
  subst h
  refine ⟨rfl, ?_, eventAbsent _ _ rfl, eventAbsent _ _ rfl⟩
  simp [monitorRemoteQuery]

/-- Concrete witness for `monitorRemoteQuery_indexFailure`. -/
theorem monitorRemoteQuery_indexFailure_witness :
    (monitorRemoteQuery "storage" sampleQuery "id"
        { status := RemoteQueryWorkflowStatus.CompletedSuccessfully, error := none }
        none 0).1 =
      mkRemoteQueryHistoryItem sampleQuery.queryName
        (createQueryId sampleQuery.queryName "id") "storage" ∧
    Event.showAndLogErrorMessage
        ("There was an issue retrieving the result for the query " ++
          sampleQuery.queryName) ∈
      (monitorRemoteQuery "storage" sampleQuery "id"
        { status := RemoteQueryWorkflowStatus.CompletedSuccessfully, error := none }
        none 0).2 :=
  ⟨(monitorRemoteQuery_indexFailure "storage" sampleQuery "id"
      { status := RemoteQueryWorkflowStatus.CompletedSuccessfully, error := none } 0 rfl).1,
   (monitorRemoteQuery_indexFailure "storage" sampleQuery "id"
      { status := RemoteQueryWorkflowStatus.CompletedSuccessfully, error := none } 0 rfl).2.1⟩

/-- Claim C6: on a `Cancelled` outcome the tracked entry ends with status
`Failed` and failure reason the literal string "Cancelled", a cancellation
message is reported, and no result summary is persisted. -/
theorem monitorRemoteQuery_cancelled (sp : String) (q : RemoteQuery)
    (sfx : String) (wr : RemoteQueryWorkflowResult)
    (ri : Option RemoteQueryResultIndex) (t : Nat)
    (h : wr.status = RemoteQueryWorkflowStatus.Cancelled) :
    (monitorRemoteQuery sp q sfx wr ri t).1.status = QueryStatus.Failed ∧
    (monitorRemoteQuery sp q sfx wr ri t).1.failureReason = some "Cancelled" ∧
    Event.showAndLogErrorMessage "Remote query monitoring was cancelled" ∈
      (monitorRemoteQuery sp q sfx wr ri t).2 ∧
    ∀ e ∈ (monitorRemoteQuery sp q sfx wr ri t).2,
      Event.isStoreQueryResult e = false := by
  obtain ⟨st, err⟩ := wr
  replace h : st = RemoteQueryWorkflowStatus.Cancelled := h
  subst h
  refine ⟨rfl, rfl, ?_, eventAbsent _ _ rfl⟩
  simp [monitorRemoteQuery]

/-- Concrete witness for `monitorRemoteQuery_cancelled`. -/
theorem monitorRemoteQuery_cancelled_witness :
    (monitorRemoteQuery "storage" sampleQuery "id"
        { status := RemoteQueryWorkflowStatus.Cancelled, error := none }
        none 0).1.status = QueryStatus.Failed ∧
    (monitorRemoteQuery "storage" sampleQuery "id"
        { status := RemoteQueryWorkflowStatus.Cancelled, error := none }
        none 0).1.failureReason = some "Cancelled" :=
  ⟨(monitorRemoteQuery_cancelled "storage" sampleQuery "id"
      { status := RemoteQueryWorkflowStatus.Cancelled, error := none } none 0 rfl).1,
   (monitorRemoteQuery_cancelled "storage" sampleQuery "id"
      { status := RemoteQueryWorkflowStatus.Cancelled, error := none } none 0 rfl).2.1⟩

/-- Claim C10: on an `InProgress` outcome (the protocol-violation case),
`monitorRemoteQuery` only reports an "Unexpected status" error: the tracked
entry is left exactly as registered (status, completed flag and failure
reason unchanged), no result summary is persisted and auto-download is not
triggered. -/
theorem monitorRemoteQuery_inProgress_frame (sp : String) (q : RemoteQuery)
    (sfx : String) (wr : RemoteQueryWorkflowResult)
    (ri : Option RemoteQueryResultIndex) (t : Nat)
    (h : wr.status = RemoteQueryWorkflowStatus.InProgress) :
    (monitorRemoteQuery sp q sfx wr ri t).1 =
      mkRemoteQueryHistoryItem q.queryName (createQueryId q.queryName sfx) sp ∧
    Event.showAndLogErrorMessage "Unexpected status: InProgress" ∈
      (monitorRemoteQuery sp q sfx wr ri t).2 ∧
    (∀ e ∈ (monitorRemoteQuery sp q sfx wr ri t).2,
      Event.isStoreQueryResult e = false) ∧
    (∀ e ∈ (monitorRemoteQuery sp q sfx wr ri t).2,
      Event.isAutoDownload e = false) := by
  obtain ⟨st, err⟩ := wr
  replace h : st = RemoteQueryWorkflowStatus.InProgress := h
  subst h
  refine ⟨rfl, ?_, eventAbsent _ _ rfl, eventAbsent _ _ rfl⟩
  simp [monitorRemoteQuery, RemoteQueryWorkflowStatus.raw]

/-- Concrete witness for `monitorRemoteQuery_inProgress_frame`. -/
theorem monitorRemoteQuery_inProgress_frame_witness :
    (monitorRemoteQuery "storage" sampleQuery "id"
        { status := RemoteQueryWorkflowStatus.InProgress, error := none }
        none 0).1 =
      mkRemoteQueryHistoryItem sampleQuery.queryName
        (createQueryId sampleQuery.queryName "id") "storage" ∧
    Event.showAndLogErrorMessage "Unexpected status: InProgress" ∈
      (monitorRemoteQuery "storage" sampleQuery "id"
        { status := RemoteQueryWorkflowStatus.InProgress, error := none }
        none 0).2 :=
  ⟨(monitorRemoteQuery_inProgress_frame "storage" sampleQuery "id"
      { status := RemoteQueryWorkflowStatus.InProgress, error := none } none 0 rfl).1,
   (monitorRemoteQuery_inProgress_frame "storage" sampleQuery "id"
      { status := RemoteQueryWorkflowStatus.InProgress, error := none } none 0 rfl).2.1⟩

/-- Claim C9: the tracked entry's `completed` flag ends true exactly when a
result summary was persisted for it (the `CompletedSuccessfully`-with-index
branch); in the `CompletedUnsuccessfully` and `Cancelled` branches the flag
is never written, so it keeps the value the entry was registered with. -/
theorem monitorRemoteQuery_completed_iff (sp : String) (q : RemoteQuery)
    (sfx : String) (wr : RemoteQueryWorkflowResult)
    (ri : Option RemoteQueryResultIndex) (t : Nat) :
    ((monitorRemoteQuery sp q sfx wr ri t).1.completed = true ↔
      ∃ e ∈ (monitorRemoteQuery sp q sfx wr ri t).2,
        Event.isStoreQueryResult e = true) ∧
    ((wr.status = RemoteQueryWorkflowStatus.CompletedUnsuccessfully ∨
        wr.status = RemoteQueryWorkflowStatus.Cancelled) →
      (monitorRemoteQuery sp q sfx wr ri t).1.completed =
        (mkRemoteQueryHistoryItem q.queryName (createQueryId q.queryName sfx) sp).completed) := by
  obtain ⟨st, err⟩ := wr
  cases st
  case CompletedSuccessfully =>
    cases ri with
    | none =>
      exact ⟨iff_of_false (fun hc => Bool.noConfusion hc) (noEventSat _ _ rfl),
        fun _ => rfl⟩
    | some idx =>
      refine ⟨iff_of_true rfl
        ⟨Event.storeFile (createQueryId q.queryName sfx) "query-result.json"
          (StoredObject.queryResultObj (mapQueryResult t idx (createQueryId q.queryName sfx))),
         by simp [monitorRemoteQuery], rfl⟩,
        fun hc => ?_⟩
      rcases hc with hc | hc <;> exact RemoteQueryWorkflowStatus.noConfusion hc
  all_goals
    cases ri <;>
      exact ⟨iff_of_false (fun hc => Bool.noConfusion hc) (noEventSat _ _ rfl),
        fun _ => rfl⟩

/-- Concrete witness for `monitorRemoteQuery_completed_iff` on a `Cancelled`
outcome. -/
theorem monitorRemoteQuery_completed_iff_witness :
    (monitorRemoteQuery "storage" sampleQuery "id"
        { status := RemoteQueryWorkflowStatus.Cancelled, error := none }
        none 0).1.completed =
      (mkRemoteQueryHistoryItem sampleQuery.queryName
        (createQueryId sampleQuery.queryName "id") "storage").completed :=
  (monitorRemoteQuery_completed_iff "storage" sampleQuery "id"
      { status := RemoteQueryWorkflowStatus.Cancelled, error := none } none 0).2
    (Or.inr rfl)

/-- Claim C7: the side effects of `monitorRemoteQuery` are ordered: the
durable write of the job descriptor (`storeFile _ "query.json" _`) precedes
history registration (`addQuery`), which precedes polling (`monitorQuery`);
and on success the persisted object is exactly the output of
`mapQueryResult` (so mapping happens before persistence) and the persistence
of the result summary precedes the auto-download trigger. -/
theorem monitorRemoteQuery_ordering (sp : String) (q : RemoteQuery)
    (sfx : String) (wr : RemoteQueryWorkflowResult)
    (ri : Option RemoteQueryResultIndex) (t : Nat) :
    precedes Event.isStoreQueryJson Event.isAddQuery
      (monitorRemoteQuery sp q sfx wr ri t).2 ∧
    precedes Event.isAddQuery Event.isMonitorQuery
      (monitorRemoteQuery sp q sfx wr ri t).2 ∧
    precedes Event.isStoreQueryResult Event.isAutoDownload
      (monitorRemoteQuery sp q sfx wr ri t).2 ∧
    ∀ idx : RemoteQueryResultIndex,
      wr.status = RemoteQueryWorkflowStatus.CompletedSuccessfully →
      ri = some idx →
      Event.storeFile (createQueryId q.queryName sfx) "query-result.json"
          (StoredObject.queryResultObj
            (mapQueryResult t idx (createQueryId q.queryName sfx))) ∈
        (monitorRemoteQuery sp q sfx wr ri t).2 ∧
      Event.executeCommandAutoDownload
          (mapQueryResult t idx (createQueryId q.queryName sfx)) ∈
        (monitorRemoteQuery sp q sfx wr ri t).2 := by
  obtain ⟨st, err⟩ := wr
  refine ⟨?_, ?_, ?_, ?_⟩
  · cases st <;> cases ri <;> exact precedes_of_precedesB _ _ _ rfl
  · cases st <;> cases ri <;> exact precedes_of_precedesB _ _ _ rfl
  · cases st <;> cases ri <;> exact precedes_of_precedesB _ _ _ rfl
  · intro idx hst hri
    replace hst : st = RemoteQueryWorkflowStatus.CompletedSuccessfully := hst
    subst hst
    subst hri
    constructor <;> simp [monitorRemoteQuery]

/-- Concrete witness for `monitorRemoteQuery_ordering` on a successful
outcome with `sampleIndex`. -/
theorem monitorRemoteQuery_ordering_witness :
    Event.storeFile (createQueryId sampleQuery.queryName "id") "query-result.json"
        (StoredObject.queryResultObj
          (mapQueryResult 0 sampleIndex (createQueryId sampleQuery.queryName "id"))) ∈
      (monitorRemoteQuery "storage" sampleQuery "id"
        { status := RemoteQueryWorkflowStatus.CompletedSuccessfully, error := none }
        (some sampleIndex) 0).2 ∧
    Event.executeCommandAutoDownload
        (mapQueryResult 0 sampleIndex (createQueryId sampleQuery.queryName "id")) ∈
      (monitorRemoteQuery "storage" sampleQuery "id"
        { status := RemoteQueryWorkflowStatus.CompletedSuccessfully, error := none }
        (some sampleIndex) 0).2 :=
  (monitorRemoteQuery_ordering "storage" sampleQuery "id"
      { status := RemoteQueryWorkflowStatus.CompletedSuccessfully, error := none }
      (some sampleIndex) 0).2.2.2 sampleIndex rfl rfl

/-- Claim C8: in `runRemoteQuery`, if the submission collaborator yields no
job then no monitoring trigger is fired; if it yields a job, the trace ends
with exactly one fire-and-forget monitoring trigger for that job (the
trigger is the last event, nothing awaits its completion). -/
theorem runRemoteQuery_followUp (sub : Option QuerySubmission) :
    (sub.bind QuerySubmission.query = none →
      ∀ e ∈ runRemoteQuery sub, Event.isMonitorTrigger e = false) ∧
    ∀ q : RemoteQuery, sub.bind QuerySubmission.query = some q →
      runRemoteQuery sub =
        [Event.credentialsInit, Event.submitRemoteQuery,
         Event.executeCommandMonitorRemoteQuery q] := by
  cases sub with
  | none => exact ⟨fun _ => eventAbsent _ _ rfl, fun q hq => Option.noConfusion hq⟩
  | some s =>
    obtain ⟨oq⟩ := s
    cases oq with
    | none => exact ⟨fun _ => eventAbsent _ _ rfl, fun q hq => Option.noConfusion hq⟩
    | some q' =>
      refine ⟨fun h => absurd h (fun hc => Option.noConfusion hc), fun q hq => ?_⟩
      have hq' : q' = q := Option.some_inj.mp hq
      subst hq'
      rfl

/-- Concrete witness for `runRemoteQuery_followUp`: a submission carrying
`sampleQuery` triggers exactly one monitoring follow-up, as the last event. -/
theorem runRemoteQuery_followUp_witness :
    runRemoteQuery (some { query := some sampleQuery }) =
      [Event.credentialsInit, Event.submitRemoteQuery,
       Event.executeCommandMonitorRemoteQuery sampleQuery] :=
  (runRemoteQuery_followUp (some { query := some sampleQuery })).2 sampleQuery rfl

end RemoteQueries
